import Mathlib

/-!
Shallow embedding of the CCD storage driver
(`registry/storage/driver/ccd/ccd.go` and its buffered-commit writer).

Remote round trips and local file-system effects are modelled by explicit
outcome values passed to each operation, and the remote entry store's visible
state by a `Remote` record; everything else is translated directly from the
source. Byte strings are `List Nat`.
-/

set_option linter.unusedVariables false

namespace Ccd

/-- Go fmt %q rendering of a string: surrounding double quotes (escaping of
special characters is elided; the identifiers and reasons used here are plain). -/
def goQ (s : String) : String := "\"" ++ s ++ "\""

/-- Error values surfaced by the driver. `storagedriver.PathNotFoundError` is
the one structured error the code constructs; every other error
(`errors.New`, `fmt.Errorf`, transport errors) is carried by its message. -/
inductive Err where
  | pathNotFound (path : String)
  | e (msg : String)
  deriving DecidableEq, Repr

/-- The message of an error as fmt.Errorf's %w verb splices it into a wrap.
Only `.e` errors ever reach a wrapping site in the code, so the rendering of
`.pathNotFound` is immaterial. -/
def Err.message : Err → String
  | .pathNotFound p => "ccd: Path not found: " ++ p
  | .e m => m

/-- Modelled from the spec: stands for the hex-encoded crypto/md5 digest that
PutContent and writer.Commit compute (the Go standard library's md5 is outside
this repository). Every claim compares digests only for equality, so the digest
is modelled as an opaque deterministic, injective-by-construction encoding of
the content, not the MD5 compression function itself. -/
def md5Hex (bs : List Nat) : String :=
  "md5-" ++ String.intercalate "-" (bs.map (fun b => toString b))

/-- v1.Entry — the fields the driver reads (pointer indirections dropped;
LastModified omitted, no claim mentions it). -/
structure Entry where
  entryid : String
  path : String
  contentHash : String
  contentSize : Nat
  deriving DecidableEq, Repr

/-- v1.Releaseentry — the fields getEntries, Delete and List read. -/
structure Releaseentry where
  entryid : String
  path : String
  deriving DecidableEq, Repr

/-- Modelled from the spec (§3, §6): the remote entry store's visible state —
entry records, unique per path, and uploaded bodies keyed by entry id. -/
structure Remote where
  entries : List Entry
  blobs : List (String × List Nat)
  deriving DecidableEq, Repr

def lookupAssoc (l : List (String × List Nat)) (k : String) : Option (List Nat) :=
  (l.find? (fun kv => kv.1 = k)).map (fun kv => kv.2)

def setAssoc (l : List (String × List Nat)) (k : String) (v : List Nat) :
    List (String × List Nat) :=
  (k, v) :: l.filter (fun kv => kv.1 ≠ k)

/-- Modelled from the spec (§6): create-or-update-entry-by-path replaces the
entry at the path, or creates it. -/
def Remote.upsertEntry (r : Remote) (ne : Entry) : Remote :=
  { r with entries := ne :: r.entries.filter (fun en => en.path ≠ ne.path) }

/-- Modelled from the spec (§6): a confirmed upload stores the body under the
entry id. -/
def Remote.storeBlob (r : Remote) (eid : String) (c : List Nat) : Remote :=
  { r with blobs := setAssoc r.blobs eid c }

/-- Modelled from the spec (§6): delete-entry removes the entry with the id. -/
def Remote.removeEntry (r : Remote) (eid : String) : Remote :=
  { r with entries := r.entries.filter (fun en => en.entryid ≠ eid) }

def Remote.findEntryByPath (r : Remote) (p : String) : Option Entry :=
  r.entries.find? (fun en => en.path = p)

def Remote.lookupBlob (r : Remote) (eid : String) : Option (List Nat) :=
  lookupAssoc r.blobs eid

/-- Outcome of one CreateOrUpdateEntryByPathWithResponse round trip. -/
inductive UpsertResp where
  | transportErr (m : String)
  | emptyBody
  | noEntryId
  | ok (entryid : String)
  deriving DecidableEq, Repr

/-- Outcome of one UploadContentWithBodyWithResponse round trip: a transport
error, or a response whose Upload-Hash header is `uh`. -/
inductive UploadResp where
  | transportErr (m : String)
  | header (uh : String)
  deriving DecidableEq, Repr

/-- Outcome of one GetEntryByPathWithResponse round trip. -/
inductive LookupResp where
  | transportErr (m : String)
  | json404
  | json500 (reason : String)
  | emptyOk
  | ok (entry : Entry)
  deriving DecidableEq, Repr

/-- Outcome of one GetContentWithResponse round trip. -/
inductive ContentResp where
  | transportErr (m : String)
  | body (bs : List Nat)
  deriving DecidableEq, Repr

/-- Outcome of one GetDiffEntriesWithResponse round trip. -/
inductive PageResp where
  | transportErr (m : String)
  | json404
  | json500 (reason : String)
  | missing
  | page (es : List Releaseentry)
  deriving DecidableEq, Repr

/-- Outcome of one DeleteEntryWithResponse round trip: a transport error, a
JSON500 body carrying the remote's reason, or a bare status code. -/
inductive DelResp where
  | transportErr (m : String)
  | json500 (reason : String)
  | status (sc : Nat)
  deriving DecidableEq, Repr

/-- ccd.go createOrUpdateEntry: error branches in source order (transport
error, nil JSON200, nil Entryid); on the ok branch the remote has performed the
upsert (the remote-side effect is modelled from the spec, §6). -/
def createOrUpdateEntry (resp : UpsertResp) (r : Remote) (path hash : String)
    (contentLength : Nat) : Except Err String × Remote :=
  match resp with
  | .transportErr m => (.error (.e m), r)
  | .emptyBody => (.error (.e "empty response from CCD"), r)
  | .noEntryId => (.error (.e "failed to determine entry ID"), r)
  | .ok eid =>
      (.ok eid,
       r.upsertEntry { entryid := eid, path := path, contentHash := hash,
                       contentSize := contentLength })

/-- ccd.go uploadContent: fails on a transport error, or when the echoed
Upload-Hash header differs from the submitted hash; on success the remote has
stored the body (modelled from the spec, §6). -/
def uploadContent (resp : UploadResp) (r : Remote) (entryID hash : String)
    (content : List Nat) : Except Err Unit × Remote :=
  match resp with
  | .transportErr m => (.error (.e m), r)
  | .header uh =>
      if uh = hash then (.ok (), r.storeBlob entryID content)
      else
        (.error (.e ("upload hash mismatch: expected " ++ goQ hash ++ " got: " ++ goQ uh)), r)

/-- ccd.go getEntryByPath: branches in source order — transport error, JSON404
(PathNotFoundError for the path), JSON500 (the remote's reason), nil JSON200. -/
def getEntryByPath (resp : LookupResp) (bucket path : String) : Except Err Entry :=
  match resp with
  | .transportErr m => .error (.e m)
  | .json404 => .error (.pathNotFound path)
  | .json500 reason => .error (.e ("unexpected error: " ++ goQ reason))
  | .emptyOk =>
      .error (.e ("failed to determine entry for bucket: " ++ goQ bucket ++ " path: " ++ goQ path))
  | .ok entry => .ok entry

/-- ccd.go getEntryContent: transport errors pass through; otherwise the
response body is returned with no status inspection. -/
def getEntryContent (resp : ContentResp) : Except Err (List Nat) :=
  match resp with
  | .transportErr m => .error (.e m)
  | .body bs => .ok bs

/-- driver.GetContent: look the entry up by path, then fetch its body by entry
id. -/
def GetContent (lresp : LookupResp) (cresp : ContentResp) (bucket path : String) :
    Except Err (List Nat) :=
  match getEntryByPath lresp bucket path with
  | .error err => .error err
  | .ok _entry => getEntryContent cresp

/-- driver.PutContent: md5 the content, create-or-update the entry with digest
and length, then upload the bytes to the returned entry id. -/
def PutContent (uresp : UpsertResp) (upl : UploadResp) (r : Remote) (path : String)
    (content : List Nat) : Except Err Unit × Remote :=
  let fileHash := md5Hex content
  match createOrUpdateEntry uresp r path fileHash content.length with
  | (.error err, r1) => (.error err, r1)
  | (.ok entryID, r1) => uploadContent upl r1 entryID fileHash content

/-- strings.TrimPrefix(listPath, "/"): drop one leading slash if present. -/
def trimLeadingSlash (s : String) : String :=
  if s.startsWith "/" then s.drop 1 else s

/-- The page loop of ccd.go getEntries. The nth element of `pages` is the
remote's response to the request for page n+1 of the trimmed path (the Go loop
issues GetDiffEntries with Page=1, PerPage=1 and increments Page); running off
the end of `pages` stands for the server answering an empty page. Branches in
source order: transport error, JSON404 (PathNotFoundError carrying the trimmed
path), JSON500, nil-or-empty page breaks the loop returning the accumulation. -/
def getEntriesLoop (trimmed : String) : List PageResp → Except Err (List Releaseentry)
  | [] => .ok []
  | resp :: rest =>
    match resp with
    | .transportErr m => .error (.e m)
    | .json404 => .error (.pathNotFound trimmed)
    | .json500 reason => .error (.e ("unexpected error: " ++ goQ reason))
    | .missing => .ok []
    | .page es =>
        if es.isEmpty then .ok []
        else
          match getEntriesLoop trimmed rest with
          | .error err => .error err
          | .ok tail => .ok (es ++ tail)

/-- ccd.go getEntries: trim the leading slash, then page from page 1. -/
def getEntries (listPath : String) (pages : List PageResp) :
    Except Err (List Releaseentry) :=
  getEntriesLoop (trimLeadingSlash listPath) pages

/-- The error driver.Delete reports for one DeleteEntryWithResponse outcome,
with the source's branch order (transport error, then JSON500, then any status
other than 204 NoContent); `none` exactly on 204. Go renders the bad status
with %q on an int; that rendering is abstracted to `toString`. -/
def delRespError (resp : DelResp) : Option Err :=
  match resp with
  | .transportErr m => some (.e m)
  | .json500 reason => some (.e ("unexpected error: " ++ goQ reason))
  | .status sc => if sc = 204 then none else some (.e ("unexpected response: " ++ toString sc))

/-- The per-entry loop of driver.Delete: `dresp` gives the remote's response to
deleting a given entry id; the first failing deletion aborts with its error,
and an entry leaves the remote state exactly when its deletion returned 204
(the remote-side effect is modelled from the spec, §6). -/
def deleteEntries (dresp : String → DelResp) : Remote → List Releaseentry →
    Except Err Unit × Remote
  | r, [] => (.ok (), r)
  | r, en :: rest =>
    match delRespError (dresp en.entryid) with
    | some err => (.error err, r)
    | none => deleteEntries dresp (r.removeEntry en.entryid) rest

/-- driver.Delete: enumerate the entries under the path — an enumeration error
is swallowed, returning success with no deletion attempted — then delete each
by entry id. -/
def Delete (pages : List PageResp) (dresp : String → DelResp) (r : Remote)
    (path : String) : Except Err Unit × Remote :=
  match getEntries path pages with
  | .error _ => (.ok (), r)
  | .ok entries => deleteEntries dresp r entries

/-- driver.Move: GetContent at src, PutContent at dst, Delete src; a failure of
any step returns immediately with that step's error. -/
def Move (lresp : LookupResp) (cresp : ContentResp) (uresp : UpsertResp)
    (upl : UploadResp) (pages : List PageResp) (dresp : String → DelResp)
    (r : Remote) (bucket src dst : String) : Except Err Unit × Remote :=
  match GetContent lresp cresp bucket src with
  | .error err => (.error err, r)
  | .ok content =>
    match PutContent uresp upl r dst content with
    | (.error err, r1) => (.error err, r1)
    | (.ok _, r1) => Delete pages dresp r1 src

/-- The ccd writer (struct `writer`): the terminal flags, the running size
counter, the bufio buffer (`buf`), the staging file's flushed bytes
(`fileContent`), whether the staging file still exists on disk, and whether the
underlying os.File has been closed. -/
structure Writer where
  closed : Bool
  committed : Bool
  cancelled : Bool
  size : Nat
  buf : List Nat
  fileContent : List Nat
  fileExists : Bool
  fileClosed : Bool
  bucket : String
  path : String
  deriving DecidableEq, Repr

/-- newWriter: fresh flags, empty bufio buffer, the size counter seeded by the
caller (driver.Writer passes the append offset). -/
def newWriter (size : Nat) (bucket path : String) (fileContent : List Nat) : Writer :=
  { closed := false, committed := false, cancelled := false, size := size,
    buf := [], fileContent := fileContent, fileExists := true,
    fileClosed := false, bucket := bucket, path := path }

/-- writer.Write: rejected in any terminal state (closed, committed, cancelled,
checked in that order); otherwise the bytes enter the bufio buffer and the size
counter grows by the count written (bufio.Writer.Write itself only fails after
an underlying flush failure, which this model surfaces at Flush time). -/
def Writer.Write (w : Writer) (p : List Nat) : (Nat × Option Err) × Writer :=
  if w.closed then ((0, some (.e "already closed")), w)
  else if w.committed then ((0, some (.e "already committed")), w)
  else if w.cancelled then ((0, some (.e "already cancelled")), w)
  else ((p.length, none), { w with buf := w.buf ++ p, size := w.size + p.length })

/-- Local removal failure: os.IsNotExist-satisfying, or any other error. -/
inductive FsErr where
  | notExist
  | other (m : String)
  deriving DecidableEq, Repr

/-- os.Remove: with no injected fault it succeeds when the file exists and
reports an IsNotExist error when it does not; `fault` injects any other
failure (e.g. permissions), leaving the file in place. -/
def osRemove (fault : Option String) (ex : Bool) : Except FsErr Unit × Bool :=
  match fault with
  | some m => (.error (.other m), ex)
  | none => if ex then (.ok (), false) else (.error .notExist, ex)

/-- writer.Cancel: rejected only when closed; marks cancelled, closes the
underlying file (error ignored), removes the staging file, tolerating an
IsNotExist outcome and returning any other removal error. -/
def Writer.Cancel (fault : Option String) (w : Writer) : Except Err Unit × Writer :=
  if w.closed then (.error (.e "already closed"), w)
  else
    let w1 := { w with cancelled := true, fileClosed := true }
    match osRemove fault w1.fileExists with
    | (.ok _, ex) => (.ok (), { w1 with fileExists := ex })
    | (.error .notExist, ex) => (.ok (), { w1 with fileExists := ex })
    | (.error (.other m), ex) => (.error (.e m), { w1 with fileExists := ex })

/-- writer.Close: flush the bufio buffer to the staging file, sync, close the
file, set closed; each failure returns its error unwrapped. -/
def Writer.Close (flushRes syncRes closeRes : Option String) (w : Writer) :
    Except Err Unit × Writer :=
  if w.closed then (.error (.e "already closed"), w)
  else
    match flushRes with
    | some m => (.error (.e m), w)
    | none =>
      let w1 := { w with fileContent := w.fileContent ++ w.buf, buf := ([] : List Nat) }
      match syncRes with
      | some m => (.error (.e m), w1)
      | none =>
        match closeRes with
        | some m => (.error (.e m), w1)
        | none => (.ok (), { w1 with closed := true, fileClosed := true })

/-- Injectable outcomes of writer.Commit's sub-steps, in program order: bufio
flush, file sync, file stat, seek-to-start before hashing, the io.Copy into the
hasher, seek-to-start before upload, the entry upsert round trip, the upload
round trip, and a fault for the final os.Remove. -/
structure CommitEnv where
  flushRes : Option String
  syncRes : Option String
  statRes : Option String
  seekHashRes : Option String
  hashCopyRes : Option String
  seekUploadRes : Option String
  upsertResp : UpsertResp
  uploadResp : UploadResp
  removeFault : Option String
  deriving DecidableEq, Repr

/-- writer.Commit: terminal-state checks, flush, sync, stat, rewind, hash the
staged file, rewind, create/update the entry with the digest and size, upload
the staged bytes, set committed, then remove the staging file (the remove
error, if any, is returned unwrapped). Each earlier failure returns the error
wrapped with its sub-step's prefix. -/
def Writer.Commit (env : CommitEnv) (r : Remote) (w : Writer) :
    Except Err Unit × Writer × Remote :=
  if w.closed then (.error (.e "already closed"), w, r)
  else if w.committed then (.error (.e "already committed"), w, r)
  else if w.cancelled then (.error (.e "already cancelled"), w, r)
  else
    match env.flushRes with
    | some m => (.error (.e ("flush file: " ++ m)), w, r)
    | none =>
      let w1 := { w with fileContent := w.fileContent ++ w.buf, buf := ([] : List Nat) }
      match env.syncRes with
      | some m => (.error (.e ("sync file: " ++ m)), w1, r)
      | none =>
        match env.statRes with
        | some m => (.error (.e ("stat file: " ++ m)), w1, r)
        | none =>
          match env.seekHashRes with
          | some m => (.error (.e ("rewind for hash: " ++ m)), w1, r)
          | none =>
            match env.hashCopyRes with
            | some m => (.error (.e ("file hash: " ++ m)), w1, r)
            | none =>
              let fileHash := md5Hex w1.fileContent
              let sz := w1.fileContent.length
              match env.seekUploadRes with
              | some m => (.error (.e ("rewind for upload: " ++ m)), w1, r)
              | none =>
                match createOrUpdateEntry env.upsertResp r w1.path fileHash sz with
                | (.error err, r1) =>
                    (.error (.e ("create/update entry: " ++ err.message)), w1, r1)
                | (.ok entryID, r1) =>
                  match uploadContent env.uploadResp r1 entryID fileHash w1.fileContent with
                  | (.error err, r2) =>
                      (.error (.e ("upload content: " ++ err.message)), w1, r2)
                  | (.ok _, r2) =>
                    let w2 := { w1 with committed := true }
                    match osRemove env.removeFault w2.fileExists with
                    | (.ok _, ex) => (.ok (), { w2 with fileExists := ex }, r2)
                    | (.error .notExist, ex) =>
                        (.error (.e "file does not exist"), { w2 with fileExists := ex }, r2)
                    | (.error (.other m), ex) =>
                        (.error (.e m), { w2 with fileExists := ex }, r2)

/-- driver.Writer: open or create the staging file for the data path under the
scratch root (the constant scratch-root prefix is omitted from the model's
keys); with append, seek to the end and seed the size counter with the existing
length; without append, truncate to zero. Only the success path is modelled:
each failing MkdirAll/OpenFile/Seek/Truncate returns before a writer exists,
and no claim concerns those returns. -/
def DriverWriter (fs : List (String × List Nat)) (bucket dataPath : String)
    (append : Bool) : Writer × List (String × List Nat) :=
  let existing := (lookupAssoc fs dataPath).getD []
  if append then
    (newWriter existing.length bucket dataPath existing, setAssoc fs dataPath existing)
  else
    (newWriter 0 bucket dataPath [], setAssoc fs dataPath [])

/-- The first failing sub-step of writer.Commit under `env`, for staged content
`content`, stated from the claim's reading of the commit sequence: the wrapped
error Commit must report, or `none` when every sub-step up to and including the
upload succeeds. To be compared with `Writer.Commit`. -/
def commitFirstFailure (env : CommitEnv) (content : List Nat) : Option Err :=
  match env.flushRes with
  | some m => some (.e ("flush file: " ++ m))
  | none =>
    match env.syncRes with
    | some m => some (.e ("sync file: " ++ m))
    | none =>
      match env.statRes with
      | some m => some (.e ("stat file: " ++ m))
      | none =>
        match env.seekHashRes with
        | some m => some (.e ("rewind for hash: " ++ m))
        | none =>
          match env.hashCopyRes with
          | some m => some (.e ("file hash: " ++ m))
          | none =>
            match env.seekUploadRes with
            | some m => some (.e ("rewind for upload: " ++ m))
            | none =>
              match env.upsertResp with
              | .transportErr m => some (.e ("create/update entry: " ++ m))
              | .emptyBody => some (.e ("create/update entry: empty response from CCD"))
              | .noEntryId => some (.e ("create/update entry: failed to determine entry ID"))
              | .ok _ =>
                match env.uploadResp with
                | .transportErr m => some (.e ("upload content: " ++ m))
                | .header uh =>
                    if uh = md5Hex content then none
                    else
                      some (.e ("upload content: " ++
                        ("upload hash mismatch: expected " ++ goQ (md5Hex content) ++
                          " got: " ++ goQ uh)))

/-- An empty remote store. -/
def remote0 : Remote := { entries := [], blobs := [] }

/-- A commit environment in which every sub-step succeeds and the upload echoes
the digest of the one staged byte 3 used in the concrete runs below. -/
def envOK : CommitEnv :=
  { flushRes := none, syncRes := none, statRes := none, seekHashRes := none,
    hashCopyRes := none, seekUploadRes := none, upsertResp := .ok "e1",
    uploadResp := .header (md5Hex [3]), removeFault := none }

/-- A concrete writer already in the cancelled state. -/
def cancelledW : Writer := { newWriter 0 "b" "p" [] with cancelled := true }

/-- Like `envOK` but the upload response echoes a wrong Upload-Hash header. -/
def envBad : CommitEnv := { envOK with uploadResp := .header "bad" }

/-- Like `envOK` but the stat sub-step fails. -/
def envStat : CommitEnv := { envOK with statRes := some "boom" }

/-- The remote state after a successful PutContent of `c` at `dst` that was
assigned entry id `eid`: the entry upserted with the digest and size of `c`,
and the body stored under `eid`. -/
def afterPut (r : Remote) (eid dst : String) (c : List Nat) : Remote :=
  (r.upsertEntry { entryid := eid, path := dst, contentHash := md5Hex c,
                   contentSize := c.length }).storeBlob eid c

end Ccd

/-! ## Helper lemmas -/

theorem Ccd.lookupAssoc_setAssoc_self (l : List (String × List Nat)) (k : String)
    (v : List Nat) : Ccd.lookupAssoc (Ccd.setAssoc l k v) k = some v := by
  simp [Ccd.lookupAssoc, Ccd.setAssoc, List.find?]

theorem Ccd.lookupAssoc_setAssoc_other (l : List (String × List Nat)) (k k2 : String)
    (v : List Nat) (h : k2 ≠ k) :
    Ccd.lookupAssoc (Ccd.setAssoc l k v) k2 = Ccd.lookupAssoc l k2 := by
  have hk : ¬ (k = k2) := fun hx => h hx.symm
  have hp : (fun (kv : String × List Nat) => !decide (kv.1 = k) && decide (kv.1 = k2))
      = (fun kv => decide (kv.1 = k2)) := by
    funext kv
    by_cases hs : kv.1 = k2
    · have hne : ¬ (kv.1 = k) := by rw [hs]; exact h
      simp [hs, hne, h]
    · simp [hs]
  simp [Ccd.lookupAssoc, Ccd.setAssoc, hk, hp]

theorem Ccd.findEntryByPath_upsert_self (r : Ccd.Remote) (ne : Ccd.Entry) :
    (r.upsertEntry ne).findEntryByPath ne.path = some ne := by
  simp [Ccd.Remote.upsertEntry, Ccd.Remote.findEntryByPath, List.find?]

theorem Ccd.findEntryByPath_upsert_other (r : Ccd.Remote) (ne : Ccd.Entry) (p : String)
    (h : p ≠ ne.path) :
    (r.upsertEntry ne).findEntryByPath p = r.findEntryByPath p := by
  have hne : ¬ (ne.path = p) := fun hx => h hx.symm
  have hp : (fun (en : Ccd.Entry) => !decide (en.path = ne.path) && decide (en.path = p))
      = (fun en => decide (en.path = p)) := by
    funext en
    by_cases hs : en.path = p
    · have hd : ¬ (en.path = ne.path) := by rw [hs]; exact h
      simp [hs, hd, h]
    · simp [hs]
  simp [Ccd.Remote.upsertEntry, Ccd.Remote.findEntryByPath, hne, hp]

/-! ## Claim C4 -/

/-- C4: GetContent maps a 404 on the entry lookup to a path-not-found error for
the path, maps a remote-reported 5xx to an error carrying the remote's stated
reason, and passes transport errors through unchanged — both on the lookup and
on the subsequent content fetch by entry id, which succeeds with the body
otherwise. -/
theorem getContent_error_mapping (bucket p m reason : String) (entry : Ccd.Entry)
    (cresp : Ccd.ContentResp) (bs : List Nat) :
    Ccd.GetContent (.transportErr m) cresp bucket p = .error (.e m)
    ∧ Ccd.GetContent .json404 cresp bucket p = .error (.pathNotFound p)
    ∧ Ccd.GetContent (.json500 reason) cresp bucket p
        = .error (.e ("unexpected error: " ++ Ccd.goQ reason))
    ∧ Ccd.GetContent (.ok entry) (.transportErr m) bucket p = .error (.e m)
    ∧ Ccd.GetContent (.ok entry) (.body bs) bucket p = .ok bs :=
  ⟨rfl, rfl, rfl, rfl, rfl⟩

/-! ## Claim C9 -/

/-- C9: opening a writer with append=false truncates any existing staging file
for the path to length zero and the writer's size counter starts at 0; with
append=true the staging file keeps its bytes, the writer starts from them, and
the size counter starts at the existing length — so truncation happens only
when append=false. -/
theorem writer_open_truncate_append (fs : List (String × List Nat))
    (bucket p : String) :
    (Ccd.DriverWriter fs bucket p false).1.size = 0
    ∧ (Ccd.DriverWriter fs bucket p false).1.fileContent = []
    ∧ Ccd.lookupAssoc (Ccd.DriverWriter fs bucket p false).2 p = some []
    ∧ (Ccd.DriverWriter fs bucket p true).1.size
        = ((Ccd.lookupAssoc fs p).getD []).length
    ∧ (Ccd.DriverWriter fs bucket p true).1.fileContent = (Ccd.lookupAssoc fs p).getD []
    ∧ Ccd.lookupAssoc (Ccd.DriverWriter fs bucket p true).2 p
        = some ((Ccd.lookupAssoc fs p).getD []) := by
  refine ⟨rfl, rfl, ?_, rfl, rfl, ?_⟩ <;>
    simp [Ccd.DriverWriter, Ccd.newWriter, Ccd.lookupAssoc_setAssoc_self]

/-! ## Claim C8 -/

/-- C8: Cancel on a writer that is not closed marks it cancelled and closes the
underlying file; with no injected removal fault it returns success and the
staging file no longer exists afterward — in particular an IsNotExist removal
outcome is tolerated, never raised — while any other removal failure is
returned. -/
theorem cancel_removes_staging (w : Ccd.Writer) (fault : Option String)
    (h : w.closed = false) :
    (Ccd.Writer.Cancel fault w).2.cancelled = true
    ∧ (Ccd.Writer.Cancel fault w).2.fileClosed = true
    ∧ (fault = none → (Ccd.Writer.Cancel fault w).1 = .ok ()
        ∧ (Ccd.Writer.Cancel fault w).2.fileExists = false)
    ∧ (∀ m, fault = some m → (Ccd.Writer.Cancel fault w).1 = .error (.e m)) := by
  rcases fault with _ | m
  · by_cases he : w.fileExists <;>
      simp [Ccd.Writer.Cancel, Ccd.osRemove, h, he]
  · simp [Ccd.Writer.Cancel, Ccd.osRemove, h]

/-- Witness for C8 at a concrete open writer with no removal fault. -/
theorem cancel_removes_staging_witness :
    (Ccd.Writer.Cancel none (Ccd.newWriter 0 "b" "p" [7])).2.cancelled = true
    ∧ (Ccd.Writer.Cancel none (Ccd.newWriter 0 "b" "p" [7])).2.fileClosed = true
    ∧ (none = (none : Option String) →
        (Ccd.Writer.Cancel none (Ccd.newWriter 0 "b" "p" [7])).1 = .ok ()
        ∧ (Ccd.Writer.Cancel none (Ccd.newWriter 0 "b" "p" [7])).2.fileExists = false)
    ∧ (∀ m, (none : Option String) = some m →
        (Ccd.Writer.Cancel none (Ccd.newWriter 0 "b" "p" [7])).1 = .error (.e m)) :=
  cancel_removes_staging (Ccd.newWriter 0 "b" "p" [7]) none rfl

/-! ## Claim C1 -/

/-- C1 counterexample: after a fully successful Commit (which sets committed
but never sets closed), a Cancel still succeeds and sets cancelled — Cancel
checks only the closed flag — so both terminal flags become true and a call
made after a terminal state returned no error. -/
theorem writer_terminal_exclusivity_cex :
    ((Ccd.Writer.Commit Ccd.envOK Ccd.remote0
        (Ccd.Writer.Write (Ccd.newWriter 0 "b" "p" []) [3]).2).1 = .ok ())
    ∧ ((Ccd.Writer.Commit Ccd.envOK Ccd.remote0
        (Ccd.Writer.Write (Ccd.newWriter 0 "b" "p" []) [3]).2).2.1.committed = true)
    ∧ ((Ccd.Writer.Cancel none (Ccd.Writer.Commit Ccd.envOK Ccd.remote0
        (Ccd.Writer.Write (Ccd.newWriter 0 "b" "p" []) [3]).2).2.1).1 = .ok ())
    ∧ ((Ccd.Writer.Cancel none (Ccd.Writer.Commit Ccd.envOK Ccd.remote0
        (Ccd.Writer.Write (Ccd.newWriter 0 "b" "p" []) [3]).2).2.1).2.cancelled = true)
    ∧ ((Ccd.Writer.Cancel none (Ccd.Writer.Commit Ccd.envOK Ccd.remote0
        (Ccd.Writer.Write (Ccd.newWriter 0 "b" "p" []) [3]).2).2.1).2.committed = true) :=
  ⟨rfl, rfl, rfl, rfl, rfl⟩

/-- C1 (amended): once committed or cancelled (or closed), every further Write
or Commit returns an error and leaves the writer, staging file and remote
unchanged; Cancel, however, checks only the closed flag — it fails when the
writer is closed, and otherwise (even after a successful Commit, which does not
set closed) it proceeds and marks cancelled. -/
theorem writer_terminal_amended (w : Ccd.Writer) (p : List Nat) (env : Ccd.CommitEnv)
    (r : Ccd.Remote) (rf : Option String)
    (h : w.closed = true ∨ w.committed = true ∨ w.cancelled = true) :
    (∃ m, Ccd.Writer.Write w p = ((0, some (Ccd.Err.e m)), w))
    ∧ (∃ m, Ccd.Writer.Commit env r w = (.error (Ccd.Err.e m), w, r))
    ∧ (w.closed = true →
        Ccd.Writer.Cancel rf w = (.error (Ccd.Err.e "already closed"), w))
    ∧ (w.closed = false → (Ccd.Writer.Cancel rf w).2.cancelled = true) := by
  refine ⟨?_, ?_, ?_, ?_⟩
  · by_cases hc : w.closed = true
    · exact ⟨"already closed", by simp [Ccd.Writer.Write, hc]⟩
    · by_cases hm : w.committed = true
      · exact ⟨"already committed", by simp [Ccd.Writer.Write, hc, hm]⟩
      · have hx : w.cancelled = true := by
          rcases h with h | h | h
          · exact absurd h hc
          · exact absurd h hm
          · exact h
        exact ⟨"already cancelled", by simp [Ccd.Writer.Write, hc, hm, hx]⟩
  · by_cases hc : w.closed = true
    · exact ⟨"already closed", by simp [Ccd.Writer.Commit, hc]⟩
    · by_cases hm : w.committed = true
      · exact ⟨"already committed", by simp [Ccd.Writer.Commit, hc, hm]⟩
      · have hx : w.cancelled = true := by
          rcases h with h | h | h
          · exact absurd h hc
          · exact absurd h hm
          · exact h
        exact ⟨"already cancelled", by simp [Ccd.Writer.Commit, hc, hm, hx]⟩
  · intro hc
    simp [Ccd.Writer.Cancel, hc]
  · intro hc
    rcases rf with _ | m
    · by_cases he : w.fileExists = true <;>
        simp [Ccd.Writer.Cancel, Ccd.osRemove, hc, he]
    · simp [Ccd.Writer.Cancel, Ccd.osRemove, hc]

/-- Witness for the amended C1 at a concrete cancelled writer. -/
theorem writer_terminal_amended_witness :
    (Ccd.cancelledW.closed = true ∨ Ccd.cancelledW.committed = true
      ∨ Ccd.cancelledW.cancelled = true)
    ∧ ((∃ m, Ccd.Writer.Write Ccd.cancelledW [1] = ((0, some (Ccd.Err.e m)), Ccd.cancelledW))
      ∧ (∃ m, Ccd.Writer.Commit Ccd.envOK Ccd.remote0 Ccd.cancelledW
          = (.error (Ccd.Err.e m), Ccd.cancelledW, Ccd.remote0))
      ∧ (Ccd.cancelledW.closed = true →
          Ccd.Writer.Cancel none Ccd.cancelledW
            = (.error (Ccd.Err.e "already closed"), Ccd.cancelledW))
      ∧ (Ccd.cancelledW.closed = false →
          (Ccd.Writer.Cancel none Ccd.cancelledW).2.cancelled = true)) :=
  ⟨Or.inr (Or.inr rfl),
   writer_terminal_amended Ccd.cancelledW [1] Ccd.envOK Ccd.remote0 none
     (Or.inr (Or.inr rfl))⟩

/-! ## Claim C3 -/

/-- C3: for an upload whose response echoes header `uh`, the upload step
succeeds exactly when `uh` equals the locally computed digest; a mismatch fails
PutContent with the integrity-mismatch error, and fails Commit (wrapped as
"upload content") with the writer left uncommitted, while a matching header
lets Commit mark the writer committed. -/
theorem upload_hash_verified (r : Ccd.Remote) (eid p2 uh : String)
    (content : List Nat) (w : Ccd.Writer) (env : Ccd.CommitEnv)
    (hopen : w.closed = false ∧ w.committed = false ∧ w.cancelled = false)
    (hloc : env.flushRes = none ∧ env.syncRes = none ∧ env.statRes = none
      ∧ env.seekHashRes = none ∧ env.hashCopyRes = none ∧ env.seekUploadRes = none)
    (hup : env.upsertResp = .ok eid) (hhdr : env.uploadResp = .header uh) :
    (uh = Ccd.md5Hex content →
      Ccd.uploadContent (.header uh) r eid (Ccd.md5Hex content) content
        = (.ok (), r.storeBlob eid content))
    ∧ (uh ≠ Ccd.md5Hex content →
      Ccd.uploadContent (.header uh) r eid (Ccd.md5Hex content) content
        = (.error (.e ("upload hash mismatch: expected " ++ Ccd.goQ (Ccd.md5Hex content)
            ++ " got: " ++ Ccd.goQ uh)), r))
    ∧ (uh ≠ Ccd.md5Hex content →
      (Ccd.PutContent (.ok eid) (.header uh) r p2 content).1
        = .error (.e ("upload hash mismatch: expected " ++ Ccd.goQ (Ccd.md5Hex content)
            ++ " got: " ++ Ccd.goQ uh)))
    ∧ (uh ≠ Ccd.md5Hex (w.fileContent ++ w.buf) →
      (Ccd.Writer.Commit env r w).1
        = .error (.e ("upload content: " ++ ("upload hash mismatch: expected "
            ++ Ccd.goQ (Ccd.md5Hex (w.fileContent ++ w.buf)) ++ " got: " ++ Ccd.goQ uh)))
      ∧ (Ccd.Writer.Commit env r w).2.1.committed = false)
    ∧ (uh = Ccd.md5Hex (w.fileContent ++ w.buf) →
      (Ccd.Writer.Commit env r w).2.1.committed = true) := by
  obtain ⟨h1, h2, h3⟩ := hopen
  obtain ⟨f1, f2, f3, f4, f5, f6⟩ := hloc
  refine ⟨?_, ?_, ?_, ?_, ?_⟩
  · intro he
    simp [Ccd.uploadContent, he]
  · intro he
    simp [Ccd.uploadContent, he]
  · intro he
    simp [Ccd.PutContent, Ccd.createOrUpdateEntry, Ccd.uploadContent, he]
  · intro he
    simp [Ccd.Writer.Commit, h1, h2, h3, f1, f2, f3, f4, f5, f6, hup, hhdr,
      Ccd.createOrUpdateEntry, Ccd.uploadContent, Ccd.Err.message, he]
  · intro he
    rcases hrf : env.removeFault with _ | m
    · by_cases hex : w.fileExists = true <;>
        simp [Ccd.Writer.Commit, h1, h2, h3, f1, f2, f3, f4, f5, f6, hup, hhdr, hrf,
          hex, Ccd.createOrUpdateEntry, Ccd.uploadContent, Ccd.osRemove, he]
    · simp [Ccd.Writer.Commit, h1, h2, h3, f1, f2, f3, f4, f5, f6, hup, hhdr, hrf,
        Ccd.createOrUpdateEntry, Ccd.uploadContent, Ccd.osRemove, he]

/-- Witness for C3: a commit whose upload response echoes the header "bad"
against staged content [3] fails with the wrapped integrity-mismatch error and
does not mark the writer committed. -/
theorem upload_hash_verified_witness :
    (Ccd.Writer.Commit Ccd.envBad Ccd.remote0 (Ccd.newWriter 0 "b" "p" [3])).1
        = .error (.e ("upload content: " ++ ("upload hash mismatch: expected "
            ++ Ccd.goQ (Ccd.md5Hex [3]) ++ " got: " ++ Ccd.goQ "bad")))
    ∧ (Ccd.Writer.Commit Ccd.envBad Ccd.remote0
        (Ccd.newWriter 0 "b" "p" [3])).2.1.committed = false :=
  (upload_hash_verified Ccd.remote0 "e1" "p" "bad" [3] (Ccd.newWriter 0 "b" "p" [3])
      Ccd.envBad ⟨rfl, rfl, rfl⟩ ⟨rfl, rfl, rfl, rfl, rfl, rfl⟩ rfl rfl).2.2.2.1
    (by decide)

/-! ## Claim C10 -/

/-- C10: when the upload-hash check fails during PutContent or during a writer
Commit, the preceding create-or-update step has already recorded the entry for
the path with the new digest and size, and that upsert is not rolled back; no
blob was stored, so the entry metadata points at content that was never
successfully uploaded. -/
theorem failed_put_leaves_entry (r : Ccd.Remote) (eid p2 uh : String)
    (content : List Nat) (w : Ccd.Writer) (env : Ccd.CommitEnv)
    (hopen : w.closed = false ∧ w.committed = false ∧ w.cancelled = false)
    (hloc : env.flushRes = none ∧ env.syncRes = none ∧ env.statRes = none
      ∧ env.seekHashRes = none ∧ env.hashCopyRes = none ∧ env.seekUploadRes = none)
    (hup : env.upsertResp = .ok eid) (hhdr : env.uploadResp = .header uh)
    (hmm : uh ≠ Ccd.md5Hex content)
    (hmm2 : uh ≠ Ccd.md5Hex (w.fileContent ++ w.buf)) :
    (Ccd.PutContent (.ok eid) (.header uh) r p2 content).1
        = .error (.e ("upload hash mismatch: expected " ++ Ccd.goQ (Ccd.md5Hex content)
            ++ " got: " ++ Ccd.goQ uh))
    ∧ (Ccd.PutContent (.ok eid) (.header uh) r p2 content).2.findEntryByPath p2
        = some { entryid := eid, path := p2, contentHash := Ccd.md5Hex content,
                 contentSize := content.length }
    ∧ (Ccd.PutContent (.ok eid) (.header uh) r p2 content).2.blobs = r.blobs
    ∧ (Ccd.Writer.Commit env r w).1
        = .error (.e ("upload content: " ++ ("upload hash mismatch: expected "
            ++ Ccd.goQ (Ccd.md5Hex (w.fileContent ++ w.buf)) ++ " got: " ++ Ccd.goQ uh)))
    ∧ (Ccd.Writer.Commit env r w).2.1.committed = false
    ∧ (Ccd.Writer.Commit env r w).2.2.findEntryByPath w.path
        = some { entryid := eid, path := w.path,
                 contentHash := Ccd.md5Hex (w.fileContent ++ w.buf),
                 contentSize := (w.fileContent ++ w.buf).length }
    ∧ (Ccd.Writer.Commit env r w).2.2.blobs = r.blobs := by
  obtain ⟨h1, h2, h3⟩ := hopen
  obtain ⟨f1, f2, f3, f4, f5, f6⟩ := hloc
  have hput : Ccd.PutContent (.ok eid) (.header uh) r p2 content
      = (.error (.e ("upload hash mismatch: expected " ++ Ccd.goQ (Ccd.md5Hex content)
            ++ " got: " ++ Ccd.goQ uh)),
         r.upsertEntry { entryid := eid, path := p2, contentHash := Ccd.md5Hex content,
                         contentSize := content.length }) := by
    simp [Ccd.PutContent, Ccd.createOrUpdateEntry, Ccd.uploadContent, hmm]
  have hcom : Ccd.Writer.Commit env r w
      = (.error (.e ("upload content: " ++ ("upload hash mismatch: expected "
            ++ Ccd.goQ (Ccd.md5Hex (w.fileContent ++ w.buf)) ++ " got: " ++ Ccd.goQ uh))),
         { w with fileContent := w.fileContent ++ w.buf, buf := [] },
         r.upsertEntry { entryid := eid, path := w.path,
                         contentHash := Ccd.md5Hex (w.fileContent ++ w.buf),
                         contentSize := (w.fileContent ++ w.buf).length }) := by
    simp [Ccd.Writer.Commit, h1, h2, h3, f1, f2, f3, f4, f5, f6, hup, hhdr,
      Ccd.createOrUpdateEntry, Ccd.uploadContent, Ccd.Err.message, hmm2]
  refine ⟨by rw [hput], ?_, ?_, by rw [hcom], ?_, ?_, ?_⟩
  · rw [hput]
    exact Ccd.findEntryByPath_upsert_self r _
  · rw [hput]
    simp [Ccd.Remote.upsertEntry]
  · rw [hcom]
    exact h2
  · rw [hcom]
    exact Ccd.findEntryByPath_upsert_self r _
  · rw [hcom]
    simp [Ccd.Remote.upsertEntry]

/-- Witness for C10: PutContent of [3] whose upload response echoes "bad"
fails, yet the entry for the path carries the new digest and size, and the blob
store is untouched. -/
theorem failed_put_leaves_entry_witness :
    (Ccd.PutContent (.ok "e1") (.header "bad") Ccd.remote0 "p" [3]).1
        = .error (.e ("upload hash mismatch: expected " ++ Ccd.goQ (Ccd.md5Hex [3])
            ++ " got: " ++ Ccd.goQ "bad"))
    ∧ (Ccd.PutContent (.ok "e1") (.header "bad") Ccd.remote0 "p" [3]).2.findEntryByPath "p"
        = some { entryid := "e1", path := "p", contentHash := Ccd.md5Hex [3],
                 contentSize := ([3] : List Nat).length }
    ∧ (Ccd.PutContent (.ok "e1") (.header "bad") Ccd.remote0 "p" [3]).2.blobs
        = Ccd.remote0.blobs := by
  have h := failed_put_leaves_entry Ccd.remote0 "e1" "p" "bad" [3]
    (Ccd.newWriter 0 "b" "p" [3]) Ccd.envBad ⟨rfl, rfl, rfl⟩
    ⟨rfl, rfl, rfl, rfl, rfl, rfl⟩ rfl rfl (by decide) (by decide)
  exact ⟨h.1, h.2.1, h.2.2.1⟩

/-! ## Claim C2 -/

/-- C2: if any sub-step of Commit fails (buffer flush, sync, stat, either
rewind, the digest computation, the entry create-or-update, or the upload),
Commit returns an error wrapped with that sub-step's name, the committed flag
stays false and the staging file is not removed; the staging file is removed
only by a commit in which every sub-step succeeded, and such a commit reports
success. -/
theorem commit_atomic_on_failure (env : Ccd.CommitEnv) (r : Ccd.Remote) (w : Ccd.Writer)
    (hopen : w.closed = false ∧ w.committed = false ∧ w.cancelled = false)
    (hex : w.fileExists = true) :
    (∀ err, Ccd.commitFirstFailure env (w.fileContent ++ w.buf) = some err →
      (Ccd.Writer.Commit env r w).1 = .error err
      ∧ (Ccd.Writer.Commit env r w).2.1.committed = false
      ∧ (Ccd.Writer.Commit env r w).2.1.fileExists = true)
    ∧ ((Ccd.Writer.Commit env r w).2.1.fileExists = false →
      Ccd.commitFirstFailure env (w.fileContent ++ w.buf) = none)
    ∧ (Ccd.commitFirstFailure env (w.fileContent ++ w.buf) = none →
      env.removeFault = none →
      (Ccd.Writer.Commit env r w).1 = .ok ()
      ∧ (Ccd.Writer.Commit env r w).2.1.committed = true
      ∧ (Ccd.Writer.Commit env r w).2.1.fileExists = false) := by
  obtain ⟨h1, h2, h3⟩ := hopen
  obtain ⟨ef, es, et, eh, ec, eu, eur, eup, erf⟩ := env
  cases ef with
  | some m =>
    simp [Ccd.Writer.Commit, Ccd.commitFirstFailure, h1, h2, h3, hex]
  | none =>
  cases es with
  | some m =>
    simp [Ccd.Writer.Commit, Ccd.commitFirstFailure, h1, h2, h3, hex]
  | none =>
  cases et with
  | some m =>
    simp [Ccd.Writer.Commit, Ccd.commitFirstFailure, h1, h2, h3, hex]
  | none =>
  cases eh with
  | some m =>
    simp [Ccd.Writer.Commit, Ccd.commitFirstFailure, h1, h2, h3, hex]
  | none =>
  cases ec with
  | some m =>
    simp [Ccd.Writer.Commit, Ccd.commitFirstFailure, h1, h2, h3, hex]
  | none =>
  cases eu with
  | some m =>
    simp [Ccd.Writer.Commit, Ccd.commitFirstFailure, h1, h2, h3, hex]
  | none =>
  cases eur with
  | transportErr m =>
    simp [Ccd.Writer.Commit, Ccd.commitFirstFailure, h1, h2, h3, hex,
      Ccd.createOrUpdateEntry, Ccd.Err.message]
  | emptyBody =>
    simp [Ccd.Writer.Commit, Ccd.commitFirstFailure, h1, h2, h3, hex,
      Ccd.createOrUpdateEntry, Ccd.Err.message]
  | noEntryId =>
    simp [Ccd.Writer.Commit, Ccd.commitFirstFailure, h1, h2, h3, hex,
      Ccd.createOrUpdateEntry, Ccd.Err.message]
  | ok eid =>
  cases eup with
  | transportErr m =>
    simp [Ccd.Writer.Commit, Ccd.commitFirstFailure, h1, h2, h3, hex,
      Ccd.createOrUpdateEntry, Ccd.uploadContent, Ccd.Err.message]
  | header uh =>
  by_cases hh : uh = Ccd.md5Hex (w.fileContent ++ w.buf)
  · cases erf with
    | some m =>
      simp [Ccd.Writer.Commit, Ccd.commitFirstFailure, h1, h2, h3, hex,
        Ccd.createOrUpdateEntry, Ccd.uploadContent, Ccd.osRemove, hh]
    | none =>
      simp [Ccd.Writer.Commit, Ccd.commitFirstFailure, h1, h2, h3, hex,
        Ccd.createOrUpdateEntry, Ccd.uploadContent, Ccd.osRemove, hh]
  · simp [Ccd.Writer.Commit, Ccd.commitFirstFailure, h1, h2, h3, hex,
      Ccd.createOrUpdateEntry, Ccd.uploadContent, Ccd.osRemove, Ccd.Err.message, hh]

/-- Witness for C2: a commit whose stat sub-step fails reports the wrapped stat
error, stays uncommitted and keeps the staging file. -/
theorem commit_atomic_on_failure_witness :
    (Ccd.Writer.Commit Ccd.envStat Ccd.remote0 (Ccd.newWriter 0 "b" "p" [3])).1
        = .error (.e ("stat file: " ++ "boom"))
    ∧ (Ccd.Writer.Commit Ccd.envStat Ccd.remote0
        (Ccd.newWriter 0 "b" "p" [3])).2.1.committed = false
    ∧ (Ccd.Writer.Commit Ccd.envStat Ccd.remote0
        (Ccd.newWriter 0 "b" "p" [3])).2.1.fileExists = true :=
  (commit_atomic_on_failure Ccd.envStat Ccd.remote0 (Ccd.newWriter 0 "b" "p" [3])
    ⟨rfl, rfl, rfl⟩ rfl).1 (.e ("stat file: " ++ "boom")) rfl

/-! ## Claim C5 -/

/-- The page loop returns the concatenation of the leading non-empty pages,
stopping at the first empty page and never looking past it. -/
theorem Ccd.getEntriesLoop_concat (tp : String) :
    ∀ (PS : List (List Ccd.Releaseentry)) (rest : List Ccd.PageResp),
      (∀ ps ∈ PS, ps ≠ []) →
      Ccd.getEntriesLoop tp (PS.map Ccd.PageResp.page ++ Ccd.PageResp.page [] :: rest)
        = .ok PS.flatten
  | [], rest, h => by
      simp [Ccd.getEntriesLoop]
  | ps :: PS, rest, h => by
      have hps : ps.isEmpty = false := by
        rcases ps with _ | ⟨a, t⟩
        · exact absurd rfl (h [] (List.mem_cons_self _ _))
        · rfl
      have ih := Ccd.getEntriesLoop_concat tp PS rest
        (fun q hq => h q (List.mem_cons_of_mem _ hq))
      simp [Ccd.getEntriesLoop, hps, ih]

/-- C5: listing trims the path's leading separator and pages from page 1,
stopping at the first page with no entries; the result is exactly the
concatenation of all non-empty pages in page order, so N entries across pages
yield N results; a 404 on the first page maps to a path-not-found error (for
the trimmed path), a reported server error to an error carrying its reason, and
an empty first page yields an empty result, not an error. -/
theorem getEntries_pagination (lp : String) (PS : List (List Ccd.Releaseentry))
    (rest rest2 : List Ccd.PageResp) (reason : String)
    (h : ∀ ps ∈ PS, ps ≠ []) :
    Ccd.getEntries lp (PS.map Ccd.PageResp.page ++ Ccd.PageResp.page [] :: rest)
        = .ok PS.flatten
    ∧ PS.flatten.length = (PS.map List.length).sum
    ∧ Ccd.getEntries lp (Ccd.PageResp.json404 :: rest2)
        = .error (.pathNotFound (Ccd.trimLeadingSlash lp))
    ∧ Ccd.getEntries lp (Ccd.PageResp.json500 reason :: rest2)
        = .error (.e ("unexpected error: " ++ Ccd.goQ reason))
    ∧ Ccd.getEntries lp (Ccd.PageResp.page [] :: rest2) = .ok [] := by
  refine ⟨Ccd.getEntriesLoop_concat (Ccd.trimLeadingSlash lp) PS rest h, ?_, rfl, rfl, rfl⟩
  simp [List.length_flatten]

/-- Witness for C5: two one-entry pages followed by an empty page aggregate to
exactly the two entries. -/
theorem getEntries_pagination_witness :
    Ccd.getEntries "/docker"
        (([[⟨"e1", "a"⟩], [⟨"e2", "b"⟩]] : List (List Ccd.Releaseentry)).map
            Ccd.PageResp.page ++ Ccd.PageResp.page [] :: [])
      = .ok ([[⟨"e1", "a"⟩], [⟨"e2", "b"⟩]] : List (List Ccd.Releaseentry)).flatten :=
  (getEntries_pagination "/docker" [[⟨"e1", "a"⟩], [⟨"e2", "b"⟩]] [] [] "r"
    (by decide)).1

/-! ## Claim C7 -/

/-- When every deletion response is 204 NoContent, the delete loop succeeds and
removes every enumerated entry. -/
theorem Ccd.deleteEntries_all204 (dresp : String → Ccd.DelResp) :
    ∀ (es : List Ccd.Releaseentry) (r : Ccd.Remote),
      (∀ x ∈ es, dresp x.entryid = .status 204) →
      Ccd.deleteEntries dresp r es
        = (.ok (), es.foldl (fun acc x => acc.removeEntry x.entryid) r)
  | [], r, h => rfl
  | en :: rest, r, h => by
      have h204 : dresp en.entryid = .status 204 := h en (List.mem_cons_self _ _)
      have ih := Ccd.deleteEntries_all204 dresp rest (r.removeEntry en.entryid)
        (fun x hx => h x (List.mem_cons_of_mem _ hx))
      simp [Ccd.deleteEntries, h204, Ccd.delRespError, ih]

/-- The delete loop stops at the first failing deletion: the prefix stays
deleted, the failing entry's error is returned, the rest is abandoned. -/
theorem Ccd.deleteEntries_stops (dresp : String → Ccd.DelResp) :
    ∀ (es1 : List Ccd.Releaseentry) (r : Ccd.Remote) (en : Ccd.Releaseentry)
      (es2 : List Ccd.Releaseentry) (err : Ccd.Err),
      (∀ x ∈ es1, dresp x.entryid = .status 204) →
      Ccd.delRespError (dresp en.entryid) = some err →
      Ccd.deleteEntries dresp r (es1 ++ en :: es2)
        = (.error err, es1.foldl (fun acc x => acc.removeEntry x.entryid) r)
  | [], r, en, es2, err, h, herr => by
      simp [Ccd.deleteEntries, herr]
  | x :: es1, r, en, es2, err, h, herr => by
      have h204 : dresp x.entryid = .status 204 := h x (List.mem_cons_self _ _)
      have ih := Ccd.deleteEntries_stops dresp es1 (r.removeEntry x.entryid) en es2 err
        (fun y hy => h y (List.mem_cons_of_mem _ hy)) herr
      simp [Ccd.deleteEntries, h204, Ccd.delRespError, ih]

/-- C7: Delete deletes each enumerated entry individually by entry id, treating
a deletion as successful exactly on a 204 NoContent response; the first failing
deletion's error is returned and the remaining entries are abandoned, with the
already-deleted prefix staying deleted; and when the enumeration itself fails,
Delete returns success with nothing deleted, swallowing the enumeration
error. -/
theorem delete_per_entry (pages : List Ccd.PageResp) (dresp : String → Ccd.DelResp)
    (r : Ccd.Remote) (p : String) :
    (∀ err, Ccd.getEntries p pages = .error err →
      Ccd.Delete pages dresp r p = (.ok (), r))
    ∧ (∀ resp, Ccd.delRespError resp = none ↔ resp = .status 204)
    ∧ (∀ es, Ccd.getEntries p pages = .ok es →
        (∀ x ∈ es, dresp x.entryid = .status 204) →
        Ccd.Delete pages dresp r p
          = (.ok (), es.foldl (fun acc x => acc.removeEntry x.entryid) r))
    ∧ (∀ es1 en es2 err, Ccd.getEntries p pages = .ok (es1 ++ en :: es2) →
        (∀ x ∈ es1, dresp x.entryid = .status 204) →
        Ccd.delRespError (dresp en.entryid) = some err →
        Ccd.Delete pages dresp r p
          = (.error err, es1.foldl (fun acc x => acc.removeEntry x.entryid) r)) := by
  refine ⟨?_, ?_, ?_, ?_⟩
  · intro err he
    simp [Ccd.Delete, he]
  · intro resp
    cases resp with
    | transportErr m => simp [Ccd.delRespError]
    | json500 reason => simp [Ccd.delRespError]
    | status sc => by_cases hsc : sc = 204 <;> simp [Ccd.delRespError, hsc]
  · intro es he hall
    simp [Ccd.Delete, he, Ccd.deleteEntries_all204 dresp es r hall]
  · intro es1 en es2 err he hall herr
    simp [Ccd.Delete, he, Ccd.deleteEntries_stops dresp es1 r en es2 err hall herr]

/-- Witness for C7: with entries e1 and e2 enumerated, e1 deleting with 204 and
e2 failing with a transport error, Delete returns the transport error and only
e1 was removed. -/
theorem delete_per_entry_witness :
    Ccd.Delete
        [Ccd.PageResp.page [⟨"e1", "a"⟩], Ccd.PageResp.page [⟨"e2", "b"⟩],
         Ccd.PageResp.page []]
        (fun eid => if eid = "e1" then Ccd.DelResp.status 204
          else Ccd.DelResp.transportErr "net")
        Ccd.remote0 "x"
      = (.error (.e "net"),
         ([⟨"e1", "a"⟩] : List Ccd.Releaseentry).foldl
           (fun acc x => acc.removeEntry x.entryid) Ccd.remote0) :=
  (delete_per_entry
      [Ccd.PageResp.page [⟨"e1", "a"⟩], Ccd.PageResp.page [⟨"e2", "b"⟩],
       Ccd.PageResp.page []]
      (fun eid => if eid = "e1" then Ccd.DelResp.status 204
        else Ccd.DelResp.transportErr "net")
      Ccd.remote0 "x").2.2.2 [⟨"e1", "a"⟩] ⟨"e2", "b"⟩ [] (.e "net") rfl
    (by decide) (by decide)

/-! ## Claim C6 -/

/-- C6: Move is exactly read-at-src, write-at-dst, delete-src, each failure
aborting the remaining steps immediately and surfacing that step's error: a
read failure leaves the remote unchanged (both paths unaffected); a write
failure surfaces the write error with no deletion attempted; and a delete
failure after a successful read and write leaves dst populated with the copied
content (entry with its digest and size, blob stored) and src's entry exactly
as it was. -/
theorem move_copy_then_delete (lresp : Ccd.LookupResp) (cresp : Ccd.ContentResp)
    (uresp : Ccd.UpsertResp) (upl : Ccd.UploadResp) (pages : List Ccd.PageResp)
    (dresp : String → Ccd.DelResp) (r : Ccd.Remote) (bucket src dst : String) :
    (∀ err, Ccd.GetContent lresp cresp bucket src = .error err →
      Ccd.Move lresp cresp uresp upl pages dresp r bucket src dst = (.error err, r))
    ∧ (∀ c err r1, Ccd.GetContent lresp cresp bucket src = .ok c →
      Ccd.PutContent uresp upl r dst c = (.error err, r1) →
      Ccd.Move lresp cresp uresp upl pages dresp r bucket src dst = (.error err, r1))
    ∧ (∀ c eid en err, Ccd.GetContent lresp cresp bucket src = .ok c →
      uresp = .ok eid → upl = .header (Ccd.md5Hex c) →
      Ccd.getEntries src pages = .ok [en] →
      Ccd.delRespError (dresp en.entryid) = some err →
      src ≠ dst →
      Ccd.Move lresp cresp uresp upl pages dresp r bucket src dst
          = (.error err, Ccd.afterPut r eid dst c)
      ∧ (Ccd.afterPut r eid dst c).findEntryByPath dst
          = some { entryid := eid, path := dst, contentHash := Ccd.md5Hex c,
                   contentSize := c.length }
      ∧ (Ccd.afterPut r eid dst c).lookupBlob eid = some c
      ∧ (Ccd.afterPut r eid dst c).findEntryByPath src = r.findEntryByPath src) := by
  refine ⟨?_, ?_, ?_⟩
  · intro err he
    simp [Ccd.Move, he]
  · intro c err r1 hg hp
    simp [Ccd.Move, hg, hp]
  · intro c eid en err hg hu hh hents herr hne
    subst hu hh
    have hput : Ccd.PutContent (.ok eid) (.header (Ccd.md5Hex c)) r dst c
        = (.ok (), Ccd.afterPut r eid dst c) := by
      simp [Ccd.PutContent, Ccd.createOrUpdateEntry, Ccd.uploadContent, Ccd.afterPut]
    refine ⟨?_, ?_, ?_, ?_⟩
    · simp [Ccd.Move, hg, hput, Ccd.Delete, hents, Ccd.deleteEntries, herr]
    · rw [Ccd.afterPut]
      exact Ccd.findEntryByPath_upsert_self r _
    · rw [Ccd.afterPut]
      exact Ccd.lookupAssoc_setAssoc_self _ eid c
    · rw [Ccd.afterPut]
      exact Ccd.findEntryByPath_upsert_other r _ src hne

/-- Witness for C6: a move of content [3] from "s" to "d" whose source deletion
fails with a transport error leaves the error surfaced and dst's entry and blob
in place. -/
theorem move_copy_then_delete_witness :
    Ccd.Move (.ok ⟨"s1", "s", Ccd.md5Hex [3], 1⟩) (.body [3]) (.ok "e1")
        (.header (Ccd.md5Hex [3]))
        [Ccd.PageResp.page [⟨"s1", "s"⟩], Ccd.PageResp.page []]
        (fun _ => Ccd.DelResp.transportErr "net") Ccd.remote0 "b" "s" "d"
      = (.error (.e "net"), Ccd.afterPut Ccd.remote0 "e1" "d" [3]) :=
  ((move_copy_then_delete (.ok ⟨"s1", "s", Ccd.md5Hex [3], 1⟩) (.body [3]) (.ok "e1")
      (.header (Ccd.md5Hex [3]))
      [Ccd.PageResp.page [⟨"s1", "s"⟩], Ccd.PageResp.page []]
      (fun _ => Ccd.DelResp.transportErr "net") Ccd.remote0 "b" "s" "d").2.2
    [3] "e1" ⟨"s1", "s"⟩ (.e "net") rfl rfl rfl rfl rfl (by decide)).1
